import Mathlib

/-!
Shallow embedding of the connection-acceptance front end of the ntex-mqtt v3
server: the handshake negotiation (src/v3/handshake.rs) and the server
selector (src/v3/selector.rs). Machine integers (u16 keep-alive values) are
modelled as natural numbers bounded by 65535 where the bound matters, with
the checked addition of the source made explicit.
-/

/-- The CONNECT packet of the external codec, reduced to the fields this core
reads: the requested keep-alive interval (a u16, held as a Nat below 65536)
and the client identifier, which stands in for the mutable remainder of the
packet (candidates may rewrite it before acknowledgement). -/
structure Connect where
  client_id : String
  keep_alive : Nat
deriving Repr, DecidableEq

/-- Return codes of the v3 connect acknowledgement used by handshake.rs. -/
inductive ConnectAckReason where
  | ConnectionAccepted
  | IdentifierRejected
  | BadUserNameOrPassword
  | NotAuthorized
  | ServiceUnavailable
deriving Repr, DecidableEq

/-- Connect message wrapper (struct Handshake of handshake.rs): the transport
handle, the parsed packet, and the shared per-connection state. The transport
and shared-state types are opaque to handshake negotiation, so they are type
parameters here. -/
structure Handshake (Io Sh : Type) where
  io : Io
  pkt : Connect
  shared : Sh
deriving DecidableEq

/-- Acknowledgement of the connect message (struct HandshakeAck of
handshake.rs); keepalive is the u16 seconds payload of ntex Seconds. -/
structure HandshakeAck (Io Sh St : Type) where
  io : Io
  session : Option St
  session_present : Bool
  return_code : ConnectAckReason
  shared : Sh
  keepalive : Nat
deriving DecidableEq

/-- u16 checked_add: the sum when it stays within the u16 range, none on
overflow. -/
def checkedAdd16 (a b : Nat) : Option Nat :=
  if a + b ≤ 65535 then some (a + b) else none

/-- Handshake::ack of handshake.rs: accept the handshake, set the session,
and negotiate the keep-alive per MQTT-3.1.2-24:
(keep_alive >> 1).checked_add(keep_alive).unwrap_or(u16::MAX) when the
requested keep-alive is nonzero, 30 otherwise. -/
def Handshake.ack {Io Sh St : Type} (self : Handshake Io Sh) (st : St)
    (session_present : Bool) : HandshakeAck Io Sh St :=
  let keepalive : Nat :=
    if self.pkt.keep_alive ≠ 0 then
      (checkedAdd16 (self.pkt.keep_alive >>> 1) self.pkt.keep_alive).getD 65535
    else
      30
  ⟨self.io, some st, session_present, .ConnectionAccepted, self.shared, keepalive⟩

/-- Handshake::identifier_rejected of handshake.rs. -/
def Handshake.identifier_rejected {Io Sh St : Type} (self : Handshake Io Sh) :
    HandshakeAck Io Sh St :=
  ⟨self.io, none, false, .IdentifierRejected, self.shared, 30⟩

/-- Handshake::bad_username_or_pwd of handshake.rs. -/
def Handshake.bad_username_or_pwd {Io Sh St : Type} (self : Handshake Io Sh) :
    HandshakeAck Io Sh St :=
  ⟨self.io, none, false, .BadUserNameOrPassword, self.shared, 30⟩

/-- Handshake::not_authorized of handshake.rs. -/
def Handshake.not_authorized {Io Sh St : Type} (self : Handshake Io Sh) :
    HandshakeAck Io Sh St :=
  ⟨self.io, none, false, .NotAuthorized, self.shared, 30⟩

/-- Handshake::service_unavailable of handshake.rs. -/
def Handshake.service_unavailable {Io Sh St : Type} (self : Handshake Io Sh) :
    HandshakeAck Io Sh St :=
  ⟨self.io, none, false, .ServiceUnavailable, self.shared, 30⟩

/-- HandshakeAck::idle_timeout of handshake.rs: replace the keepalive field
of an already built acknowledgement, keeping every other field. -/
def HandshakeAck.idle_timeout {Io Sh St : Type} (self : HandshakeAck Io Sh St)
    (timeout : Nat) : HandshakeAck Io Sh St :=
  ⟨self.io, self.session, self.session_present, self.return_code, self.shared, timeout⟩

theorem shiftRight_one_eq_div_two (n : Nat) : n >>> 1 = n / 2 := rfl

/-- Claim C1: accepting a handshake whose requested keep-alive is k (a u16)
produces an acknowledgement whose negotiated keep-alive is
min 65535 (k + k / 2) when k is nonzero and 30 when k = 0. -/
theorem C1_ack_keepalive {Io Sh St : Type} (io : Io) (sh : Sh) (st : St)
    (sp : Bool) (cid : String) (k : Nat) (hk : k ≤ 65535) :
    (Handshake.ack ⟨io, ⟨cid, k⟩, sh⟩ st sp).keepalive =
      if k = 0 then 30 else min 65535 (k + k / 2) := by
  by_cases h0 : k = 0
  · subst h0
    rfl
  · simp only [Handshake.ack, checkedAdd16, shiftRight_one_eq_div_two, h0,
      if_neg, ne_eq, not_false_eq_true, if_true, if_false]
    split
    · simp only [Option.getD_some]
      omega
    · simp only [Option.getD_none]
      omega

/-- Witness for C1 at the concrete requested keep-alive 60, which negotiates
to 90. -/
theorem C1_ack_keepalive_witness :
    ((Handshake.ack (⟨(), ⟨"", 60⟩, ()⟩ : Handshake Unit Unit) () true).keepalive =
        if 60 = 0 then 30 else min 65535 (60 + 60 / 2)) ∧
      min 65535 (60 + 60 / 2) = 90 :=
  ⟨C1_ack_keepalive () () () true "" 60 (by decide), by decide⟩

/-- Claim C6: each of the four rejection constructors yields an
acknowledgement with no session, session_present false, keep-alive 30, and
the return code of that rejection, for every handshake request. -/
theorem C6_rejections {Io Sh St : Type} (h : Handshake Io Sh) :
    (h.identifier_rejected : HandshakeAck Io Sh St) =
        ⟨h.io, none, false, .IdentifierRejected, h.shared, 30⟩ ∧
      (h.bad_username_or_pwd : HandshakeAck Io Sh St) =
        ⟨h.io, none, false, .BadUserNameOrPassword, h.shared, 30⟩ ∧
      (h.not_authorized : HandshakeAck Io Sh St) =
        ⟨h.io, none, false, .NotAuthorized, h.shared, 30⟩ ∧
      (h.service_unavailable : HandshakeAck Io Sh St) =
        ⟨h.io, none, false, .ServiceUnavailable, h.shared, 30⟩ :=
  ⟨rfl, rfl, rfl, rfl⟩

/-- Claim C7: overriding the idle timeout of an already built acknowledgement
sets the keep-alive to the given duration and leaves each other field
unchanged. -/
theorem C7_idle_timeout {Io Sh St : Type} (a : HandshakeAck Io Sh St) (d : Nat) :
    (a.idle_timeout d).keepalive = d ∧
      (a.idle_timeout d).return_code = a.return_code ∧
      (a.idle_timeout d).session = a.session ∧
      (a.idle_timeout d).session_present = a.session_present ∧
      (a.idle_timeout d).io = a.io ∧
      (a.idle_timeout d).shared = a.shared :=
  ⟨rfl, rfl, rfl, rfl, rfl, rfl⟩

/-- Packet type tags of the external codec: one frame read from the
transport, which either is a CONNECT packet or some other frame carrying its
wire packet-type tag (what Packet::packet_type reports for it). -/
inductive Packet where
  | connect (c : Connect)
  | other (ptype : Nat)
deriving Repr, DecidableEq

/-- Packet::packet_type of the external codec; the CONNECT type tag is 1. -/
def Packet.packet_type : Packet → Nat
  | .connect _ => 1
  | .other t => t

/-- The ProtocolError variant produced by selector.rs: an unexpected packet,
carrying the offending packet type and the static message. -/
inductive ProtocolError where
  | unexpected (packet_type : Nat) (msg : String)
deriving Repr, DecidableEq

/-- The MqttError variants reachable from SelectorService::call, over the
codec-error type Ce and the handler-error type E: an error of the first-frame
read converted by MqttError::from, Disconnected, Protocol, ServerError, and
the errors returned by candidate servers, which already are MqttError
values. -/
inductive MqttError (Ce E : Type) where
  | codec (e : Ce)
  | disconnected
  | protocol (e : ProtocolError)
  | serverError (msg : String)
  | service (e : E)
deriving DecidableEq

/-- The SelectItem tuple of selector.rs: the CONNECT packet, the transport,
the io state, the shared per-connection context, and the optional handshake
deadline, threaded from candidate to candidate. Transport, state, shared
context and deadline are opaque to the selector, so they are type
parameters. -/
structure SelectItem (Io Sa Sh D : Type) where
  connect : Connect
  io : Io
  state : Sa
  shared : Sh
  delay : Option D
deriving DecidableEq

/-- Log levels of the log statements in SelectorService::call. -/
inductive LogLevel where
  | trace
  | info
  | error
deriving Repr, DecidableEq

/-- One registered candidate server, as boxed in selector.rs: offered the
SelectItem tuple, it either fails with an MqttError, declines returning a
possibly mutated tuple (Either::Left), or claims the connection
(Either::Right). -/
def Server (Io Sa Sh D Ce E : Type) : Type :=
  SelectItem Io Sa Sh D → Except (MqttError Ce E) (SelectItem Io Sa Sh D ⊕ Unit)

/-- Observable outcome of one SelectorService::call: the tuples offered to
candidates in consultation order, the log records emitted, and the final
result of the per-connection task. -/
structure CallOutput (Io Sa Sh D Ce E : Type) where
  offered : List (SelectItem Io Sa Sh D)
  logs : List (LogLevel × String)
  result : Except (MqttError Ce E) Unit

/-- The candidate loop of SelectorService::call (for srv in servers.iter()):
each candidate in turn is offered the current tuple; an error ends the task
with that error, a decline replaces the tuple with the returned one, a claim
ends the task successfully; an exhausted list logs at error level and fails
with ServerError "Cannot handle CONNECT packet". -/
def callServers {Io Sa Sh D Ce E : Type} :
    List (Server Io Sa Sh D Ce E) → SelectItem Io Sa Sh D →
      CallOutput Io Sa Sh D Ce E
  | [], _ =>
    ⟨[], [(.error, "Cannot handle CONNECT packet")],
      .error (.serverError "Cannot handle CONNECT packet")⟩
  | srv :: rest, item =>
    match srv item with
    | .error e => ⟨[item], [], .error e⟩
    | .ok (.inl next) =>
      let out := callServers rest next
      ⟨item :: out.offered, out.logs, out.result⟩
    | .ok (.inr _) => ⟨[item], [], .ok ()⟩

/-- SelectorService::call of selector.rs, as a function of the outcome of
the first-frame read (state.next): a read error is converted and aborts, a
clean close (none) aborts with Disconnected, a non-CONNECT first frame
aborts with ProtocolError::Unexpected naming the packet type, and a CONNECT
packet starts the candidate loop on the freshly assembled tuple. -/
def SelectorService.call {Io Sa Sh D Ce E : Type}
    (readResult : Except Ce (Option Packet)) (io : Io) (state : Sa) (shared : Sh)
    (delay : Option D) (servers : List (Server Io Sa Sh D Ce E)) :
    CallOutput Io Sa Sh D Ce E :=
  match readResult with
  | .error e =>
    ⟨[], [(.trace, "Error is received during mqtt handshake")], .error (.codec e)⟩
  | .ok none =>
    ⟨[], [(.trace, "Server mqtt is disconnected during handshake")],
      .error .disconnected⟩
  | .ok (some (.connect connect)) =>
    callServers servers ⟨connect, io, state, shared, delay⟩
  | .ok (some p) =>
    ⟨[], [(.info, "MQTT-3.1.0-1: Expected CONNECT packet, received")],
      .error (.protocol (.unexpected p.packet_type
        "MQTT-3.1.0-1: Expected CONNECT packet"))⟩

/-- Result of polling one candidate for readiness
(Poll of Result, as seen through the question-mark operator in
SelectorService::poll_ready): pending, ready with Ok, or ready with Err. -/
inductive PollResult (E : Type) where
  | pending
  | readyOk
  | readyErr (e : E)
deriving Repr, DecidableEq

/-- is_ready of the polled value after the question-mark operator stripped
the error: only Pending is not ready. -/
def PollResult.is_ready {E : Type} : PollResult E → Bool
  | .pending => false
  | .readyOk => true
  | .readyErr _ => true

/-- The loop of SelectorService::poll_ready, threading the accumulator
(ready starts true, is and-ed with the readiness of each candidate) and
returning how many candidates were polled along with the final poll result;
the question-mark operator returns a ready error immediately. -/
def poll_ready_loop {E : Type} : List (PollResult E) → Bool → Nat × PollResult E
  | [], ready => (0, if ready then .readyOk else .pending)
  | .readyErr e :: _, _ => (1, .readyErr e)
  | .readyOk :: rest, ready =>
    let out := poll_ready_loop rest (ready && true)
    (out.1 + 1, out.2)
  | .pending :: rest, ready =>
    let out := poll_ready_loop rest (ready && false)
    (out.1 + 1, out.2)

/-- SelectorService::poll_ready, given each registered candidate poll
outcome in registration order. -/
def SelectorService.poll_ready {E : Type} (polls : List (PollResult E)) :
    Nat × PollResult E :=
  poll_ready_loop polls true

/-- The loop of SelectorService::poll_shutdown: each candidate poll_shutdown
yields Poll of Unit, modelled as a Bool (true for Ready); every candidate is
polled and the accumulator is and-ed; the pair returned is how many
candidates were polled and whether the selector reports Ready. -/
def poll_shutdown_loop : List Bool → Bool → Nat × Bool
  | [], ready => (0, ready)
  | p :: rest, ready =>
    let out := poll_shutdown_loop rest (ready && p)
    (out.1 + 1, out.2)

/-- SelectorService::poll_shutdown, given each registered candidate poll
outcome in registration order. -/
def SelectorService.poll_shutdown (polls : List Bool) : Nat × Bool :=
  poll_shutdown_loop polls true

/-- DeclineChain ds item out offered holds when offering item to the
candidates ds makes each of them decline in turn, each candidate being
offered exactly the tuple the previous one returned; out is the tuple the
last decliner returned and offered lists the tuples offered to ds in
order. -/
def DeclineChain {Io Sa Sh D Ce E : Type} :
    List (Server Io Sa Sh D Ce E) → SelectItem Io Sa Sh D →
      SelectItem Io Sa Sh D → List (SelectItem Io Sa Sh D) → Prop
  | [], item, out, offered => out = item ∧ offered = []
  | s :: rest, item, out, offered =>
    ∃ next off2, s item = .ok (.inl next) ∧ DeclineChain rest next out off2 ∧
      offered = item :: off2

/-- Claim C2: candidates are consulted one at a time in registration order;
when the candidates before s decline in a chain (each being offered exactly
the tuple, mutations included, that the previous decliner returned) and s
claims the tuple the chain produced, the call succeeds having offered
exactly the chain tuples, and the candidates after s are never consulted
(the output does not depend on rest). -/
theorem C2_registration_order {Io Sa Sh D Ce E : Type}
    (ds rest : List (Server Io Sa Sh D Ce E)) (s : Server Io Sa Sh D Ce E)
    (item out : SelectItem Io Sa Sh D) (offered : List (SelectItem Io Sa Sh D))
    (hchain : DeclineChain ds item out offered) (hclaim : s out = .ok (.inr ())) :
    callServers (ds ++ s :: rest) item = ⟨offered ++ [out], [], .ok ()⟩ := by
  induction ds generalizing item offered with
  | nil =>
    obtain ⟨h1, h2⟩ := hchain
    subst h1
    subst h2
    simp only [List.nil_append, callServers, hclaim]
  | cons s0 ds ih =>
    obtain ⟨next, off2, hs, hch2, hoff⟩ := hchain
    subst hoff
    have h2 := ih next off2 hch2
    simp only [List.cons_append, callServers, hs, List.append_eq, h2]

/-- A concrete tuple for the witnesses. -/
def it0 : SelectItem Unit Unit Unit Unit :=
  ⟨⟨"a", 60⟩, (), (), (), none⟩

/-- The tuple cDecl returns when offered it0: the keep-alive was bumped. -/
def it1 : SelectItem Unit Unit Unit Unit :=
  ⟨⟨"a", 61⟩, (), (), (), none⟩

/-- A candidate that declines every offer, mutating the request by bumping
the requested keep-alive. -/
def cDecl : Server Unit Unit Unit Unit Unit Unit :=
  fun it =>
    .ok (.inl ⟨⟨it.connect.client_id, it.connect.keep_alive + 1⟩,
      it.io, it.state, it.shared, it.delay⟩)

/-- A candidate that claims every offer. -/
def cClaim : Server Unit Unit Unit Unit Unit Unit :=
  fun _ => .ok (.inr ())

/-- A candidate that fails every offer. -/
def cErr : Server Unit Unit Unit Unit Unit Unit :=
  fun _ => .error .disconnected

/-- Witness for C2: a decliner, then a claimer, then a candidate that would
fail; the decliner is offered it0, the claimer is offered the mutated it1
and ends selection, the third candidate is never consulted. -/
theorem C2_registration_order_witness :
    callServers [cDecl, cClaim, cErr] it0 = ⟨[it0, it1], [], .ok ()⟩ :=
  C2_registration_order [cDecl] [cErr] cClaim it0 it1 [it0]
    ⟨it1, [], rfl, ⟨rfl, rfl⟩, rfl⟩ rfl

/-- Claim C4: when the first frame decodes as a non-CONNECT packet of type
t, the call fails at once with ProtocolError::Unexpected carrying t, and no
candidate is consulted (the offered list is empty, whatever the registered
candidates are). -/
theorem C4_non_connect_first_frame {Io Sa Sh D Ce E : Type} (t : Nat) (io : Io)
    (sa : Sa) (sh : Sh) (d : Option D) (servers : List (Server Io Sa Sh D Ce E)) :
    SelectorService.call (.ok (some (.other t))) io sa sh d servers =
      ⟨[], [(.info, "MQTT-3.1.0-1: Expected CONNECT packet, received")],
        .error (.protocol (.unexpected t "MQTT-3.1.0-1: Expected CONNECT packet"))⟩ :=
  rfl

/-- Claim C5: when every registered candidate declines every offer (in
particular when no candidate is registered), the call consults all of them,
fails with ServerError "Cannot handle CONNECT packet" (the spec name of this
failure is NoCandidateAccepted), and the only log record is at error
level. -/
theorem C5_no_candidate_accepted {Io Sa Sh D Ce E : Type}
    (servers : List (Server Io Sa Sh D Ce E)) (item : SelectItem Io Sa Sh D)
    (hdecl : ∀ srv ∈ servers, ∀ it, ∃ it2, srv it = .ok (.inl it2)) :
    (callServers servers item).result =
        .error (.serverError "Cannot handle CONNECT packet") ∧
      (callServers servers item).logs =
        [(.error, "Cannot handle CONNECT packet")] ∧
      (callServers servers item).offered.length = servers.length := by
  induction servers generalizing item with
  | nil => exact ⟨rfl, rfl, rfl⟩
  | cons s rest ih =>
    obtain ⟨it2, hs⟩ := hdecl s (List.mem_cons_self s rest) item
    have h2 := ih it2 (fun srv hm it => hdecl srv (List.mem_cons_of_mem s hm) it)
    simp only [callServers, hs, List.length_cons]
    exact ⟨h2.1, h2.2.1, by rw [h2.2.2]⟩

/-- Witness for C5 with the single declining candidate cDecl. -/
theorem C5_no_candidate_accepted_witness :
    (callServers [cDecl] it0).result =
        .error (.serverError "Cannot handle CONNECT packet") ∧
      (callServers [cDecl] it0).logs =
        [(.error, "Cannot handle CONNECT packet")] ∧
      (callServers [cDecl] it0).offered.length = [cDecl].length :=
  C5_no_candidate_accepted [cDecl] it0
    (by
      intro srv hm it
      rw [List.mem_singleton] at hm
      subst hm
      exact ⟨_, rfl⟩)

/-- Claim C9: a clean peer close before any frame (the read yields none)
makes the call fail with Disconnected, and a transport or decode error e
makes it fail with the converted error; in both cases no candidate is
consulted. -/
theorem C9_disconnected_and_read_error {Io Sa Sh D Ce E : Type} (e : Ce)
    (io : Io) (sa : Sa) (sh : Sh) (d : Option D)
    (servers : List (Server Io Sa Sh D Ce E)) :
    (SelectorService.call (.ok none) io sa sh d servers =
        ⟨[], [(.trace, "Server mqtt is disconnected during handshake")],
          .error .disconnected⟩) ∧
      (SelectorService.call (.error e) io sa sh d servers =
        ⟨[], [(.trace, "Error is received during mqtt handshake")],
          .error (.codec e)⟩) :=
  ⟨rfl, rfl⟩

/-- Claim C10: a candidate whose call fails with e while offered a tuple
ends the task at once with e: no later candidate is consulted, no
exhaustion failure or error log is produced. -/
theorem C10_candidate_error_propagates {Io Sa Sh D Ce E : Type}
    (s : Server Io Sa Sh D Ce E) (rest : List (Server Io Sa Sh D Ce E))
    (item : SelectItem Io Sa Sh D) (e : MqttError Ce E)
    (hs : s item = .error e) :
    callServers (s :: rest) item = ⟨[item], [], .error e⟩ := by
  simp only [callServers, hs]

/-- Witness for C10: a failing candidate followed by one that would claim;
the second is never consulted. -/
theorem C10_candidate_error_propagates_witness :
    callServers [cErr, cClaim] it0 = ⟨[it0], [], .error .disconnected⟩ :=
  C10_candidate_error_propagates cErr [cClaim] it0 MqttError.disconnected rfl

theorem poll_ready_loop_no_err {E : Type} (polls : List (PollResult E)) (r : Bool)
    (herr : ∀ p ∈ polls, ∀ e : E, p ≠ .readyErr e) :
    poll_ready_loop polls r =
      (polls.length,
        if r && polls.all PollResult.is_ready then PollResult.readyOk
        else PollResult.pending) := by
  induction polls generalizing r with
  | nil => simp [poll_ready_loop]
  | cons p rest ih =>
    cases p with
    | readyErr e => exact absurd rfl (herr _ (List.mem_cons_self _ _) e)
    | readyOk =>
      have h2 := ih r (fun q hm e => herr q (List.mem_cons_of_mem _ hm) e)
      simp [poll_ready_loop, h2, PollResult.is_ready]
    | pending =>
      have h2 := ih false (fun q hm e => herr q (List.mem_cons_of_mem _ hm) e)
      simp [poll_ready_loop, h2, PollResult.is_ready]

theorem poll_shutdown_loop_spec (polls : List Bool) (r : Bool) :
    poll_shutdown_loop polls r = (polls.length, r && polls.all id) := by
  induction polls generalizing r with
  | nil => simp [poll_shutdown_loop]
  | cons p rest ih => simp [poll_shutdown_loop, ih, Bool.and_assoc]

theorem poll_ready_loop_err {E : Type} (pre post : List (PollResult E)) (e : E)
    (r : Bool) (hpre : ∀ p ∈ pre, ∀ e2 : E, p ≠ .readyErr e2) :
    poll_ready_loop (pre ++ .readyErr e :: post) r = (pre.length + 1, .readyErr e) := by
  induction pre generalizing r with
  | nil => simp [poll_ready_loop]
  | cons p rest ih =>
    cases p with
    | readyErr e2 => exact absurd rfl (hpre _ (List.mem_cons_self _ _) e2)
    | readyOk =>
      have h2 := ih r (fun q hm e2 => hpre q (List.mem_cons_of_mem _ hm) e2)
      simp [poll_ready_loop, h2]
    | pending =>
      have h2 := ih false (fun q hm e2 => hpre q (List.mem_cons_of_mem _ hm) e2)
      simp [poll_ready_loop, h2]

/-- Counterexample to C8 as stated: readiness results are Poll values of a
Result, so a candidate may be ready with an error; with the results
[ready with error, ready with ok] the question-mark operator returns after
the first candidate, so only 1 of the 2 candidates is polled — the checks do
not poll every candidate for every combination of results. -/
theorem C8_counterexample :
    ¬ ∀ polls : List (PollResult Unit),
        (SelectorService.poll_ready polls).1 = polls.length := by
  intro h
  exact absurd (h [.readyErr (), .readyOk]) (by decide)

/-- Claim C8 amended: provided no candidate readiness poll returns an error,
poll_ready polls every candidate (no short-circuit on a not-ready one) and
reports ready exactly when every candidate is ready; poll_shutdown always
polls every candidate and completes exactly when every candidate has
completed shutdown; and when some candidate readiness poll does return an
error (the first such candidate standing after the error-free prefix pre),
the readiness check ends at that candidate with exactly that error, the
candidates after it left unpolled. -/
theorem C8_all_polled {E : Type} (polls : List (PollResult E)) (spolls : List Bool)
    (pre post : List (PollResult E)) (e : E)
    (herr : ∀ p ∈ polls, ∀ e2 : E, p ≠ .readyErr e2)
    (hpre : ∀ p ∈ pre, ∀ e2 : E, p ≠ .readyErr e2) :
    (SelectorService.poll_ready polls).1 = polls.length ∧
      ((SelectorService.poll_ready polls).2 = .readyOk ↔
        ∀ p ∈ polls, p.is_ready = true) ∧
      (SelectorService.poll_shutdown spolls).1 = spolls.length ∧
      ((SelectorService.poll_shutdown spolls).2 = true ↔
        ∀ b ∈ spolls, b = true) ∧
      SelectorService.poll_ready (pre ++ .readyErr e :: post) =
        (pre.length + 1, .readyErr e) := by
  have h1 := poll_ready_loop_no_err polls true herr
  have h2 := poll_shutdown_loop_spec spolls true
  have h3 := poll_ready_loop_err pre post e true hpre
  unfold SelectorService.poll_ready SelectorService.poll_shutdown
  rw [h1, h2, h3]
  refine ⟨rfl, ?_, rfl, ?_, rfl⟩
  · have hsplit : (if (true && polls.all PollResult.is_ready) = true
        then (PollResult.readyOk : PollResult E) else PollResult.pending) =
          PollResult.readyOk ↔
          polls.all PollResult.is_ready = true := by
      cases hall : polls.all PollResult.is_ready <;> simp [hall]
    rw [hsplit, List.all_eq_true]
  · simp [List.all_eq_true]

/-- Witness for C8 amended, with readiness results [ready, pending] and
shutdown results [complete, pending]: both candidates polled in each check,
the selector collectively pending; and with readiness results
[ready, error, ready] the check ends at the second candidate with the
error, the third unpolled. -/
theorem C8_all_polled_witness :
    (SelectorService.poll_ready
        ([.readyOk, .pending] : List (PollResult Unit))).1 =
        ([.readyOk, .pending] : List (PollResult Unit)).length ∧
      ((SelectorService.poll_ready
          ([.readyOk, .pending] : List (PollResult Unit))).2 = .readyOk ↔
        ∀ p ∈ ([.readyOk, .pending] : List (PollResult Unit)),
          p.is_ready = true) ∧
      (SelectorService.poll_shutdown [true, false]).1 = [true, false].length ∧
      ((SelectorService.poll_shutdown [true, false]).2 = true ↔
        ∀ b ∈ [true, false], b = true) ∧
      SelectorService.poll_ready
          (([.readyOk] : List (PollResult Unit)) ++ .readyErr () :: [.readyOk]) =
        (([.readyOk] : List (PollResult Unit)).length + 1, .readyErr ()) :=
  C8_all_polled [.readyOk, .pending] [true, false] [.readyOk] [.readyOk] ()
    (by decide) (by decide)
